import Mathlib

/-!
Shallow embedding of the NSE insider-trading scraper
(`cron_script.py` and `main.py`), covering the parts that the
specification's claims are about:

* cell values of a pandas DataFrame (`Value`): a value is either absent
  (NaN / NaT / pd.NA) or a typed payload (date, number, string); `valueStr`
  is Python's `str` rendering of a non-absent cell, modelled abstractly but
  injectively per payload;
* records / DataFrames: a record is an association list of column name to
  value, and a DataFrame is a list of records (each record carrying the
  frame's columns);
* `create_unique_key` (cron_script.py lines 221-232);
* `update_data_file` (cron_script.py lines 234-298) over an explicit
  filesystem state `FS` (data file, backup files, modification time);
* `get_last_update_time` (cron_script.py lines 82-106) and the 30-day
  window clamp of `fetch_insider_data` (cron_script.py lines 108-120);
* the response-handling tail of `fetch_insider_data` in both variants
  (cron_script.py lines 137-189, main.py lines 94-162) over an abstract
  decoded HTTP response.

Timestamps are modelled as integers (seconds); `timedelta(days=n)` is
`n * 86400`.  CSV serialization is abstracted as the identity on the list
of records: writing then reading a file yields the same records, and a
file whose read raises (corrupt content, `EmptyDataError`, ...) is
modelled by the `FileContent.corrupt` constructor.  `pd.to_datetime(c,
errors = coerce)` on a column that was round-tripped this way keeps date
values and coerces anything else to NaT (absent), which is what
`to_datetime_coerce` does.
-/

/-- A cell value: either absent (NaN / NaT / pd.NA after normalization) or a
typed payload.  Dates carry an integer timestamp, numbers an integer. -/
inductive Value where
  | absent : Value
  | date : Int → Value
  | num : Int → Value
  | str : String → Value
deriving DecidableEq, Repr

/-- Python's `str` applied to a non-absent cell value.  The exact rendering
of dates and numbers is abstracted (`ts:<t>` for a timestamp), but it is a
function of the payload, which is all the key computation relies on.
`str` of an absent cell is `nan`; the code never reaches this case because
it tests `pd.notna` first. -/
def valueStr : Value → String
  | Value.absent => "nan"
  | Value.date t => "ts:" ++ toString t
  | Value.num n => toString n
  | Value.str s => s

/-- One row of a DataFrame: an association list from column name to value.
`row.index` in pandas is the list of first components. -/
structure Record where
  fields : List (String × Value)
deriving DecidableEq, Repr

/-- First value stored under column `f`, if any: `field in row.index`
is `(lookupField f r.fields).isSome` and `row[field]` is its payload. -/
def lookupField (f : String) : List (String × Value) → Option Value
  | [] => none
  | (g, w) :: rest => if g = f then some w else lookupField f rest

/-- Column assignment `df[f] = v` at the level of one row: replaces the
value in place when the column exists, appends the column otherwise. -/
def setFieldList (f : String) (v : Value) : List (String × Value) → List (String × Value)
  | [] => [(f, v)]
  | (g, w) :: rest => if g = f then (f, v) :: rest else (g, w) :: setFieldList f v rest

/-- Row-level view of column assignment. -/
def Record.setField (r : Record) (f : String) (v : Value) : Record :=
  ⟨setFieldList f v r.fields⟩

/-- Value of column `f` in row `r`, absent when the column is missing
(used only where the code guarantees the column exists, or where pandas
itself treats a missing entry as NaN). -/
def Record.get (r : Record) (f : String) : Value :=
  (lookupField f r.fields).getD Value.absent

/-- Column drop `df.drop(f, axis=1)` at the level of one row. -/
def Record.removeField (r : Record) (f : String) : Record :=
  ⟨r.fields.filter fun p => !(p.1 == f)⟩

/-- The fixed ordered field subset of cron_script.py line 224. -/
def key_fields : List String :=
  ["symbol", "company", "name", "date", "secVal", "tdpTransactionType"]

/-- cron_script.py lines 221-232: for each key field present in the row's
schema, append `str(value)` when the value is not NA and the literal
`NA` when it is; fields missing from the schema contribute nothing; join
with the separator bar. -/
def create_unique_key (row : Record) : String :=
  let key_parts := key_fields.foldl (fun acc field =>
    match lookupField field row.fields with
    | some v => acc ++ [if v = Value.absent then "NA" else valueStr v]
    | none => acc) ([] : List String)
  String.intercalate "|" key_parts

/-- pd.to_datetime with errors coerce, applied to a cell of the date column
of a file that round-tripped through CSV: a date value stays itself, an
absent value stays NaT, and any other payload fails to parse as a date in
the stored format and coerces to NaT. -/
def to_datetime_coerce : Value → Value
  | Value.date t => Value.date t
  | _ => Value.absent

/-- cron_script.py lines 247-248 (also 94-95): coerce the date column of a
row that has one; a row without the column is untouched (which also covers
the frame-level guard, since a frame without the column has no such row). -/
def Record.convertDate (r : Record) : Record :=
  if (lookupField "date" r.fields).isSome then
    r.setField "date" (to_datetime_coerce (r.get "date"))
  else r

/-- Frame-level date-column coercion. -/
def convertDateCol (df : List Record) : List Record :=
  df.map Record.convertDate

/-- cron_script.py lines 251-252: df[unique_key] = df.apply(create_unique_key,
axis=1).  Every key is computed from the row as it stood before the
assignment (the key fields do not include unique_key, so order is moot). -/
def addKeyColumn (df : List Record) : List Record :=
  df.map fun r => r.setField "unique_key" (Value.str (create_unique_key r))

/-- Membership test behind `Series.isin`. -/
def isinVals (v : Value) : List Value → Bool
  | [] => false
  | w :: ws => if v = w then true else isinVals v ws

/-- Frame-level column presence, `c in df.columns`. -/
def hasCol (df : List Record) (c : String) : Bool :=
  df.any fun r => (lookupField c r.fields).isSome

/-- Sort key of a row for `sort_values(date, ascending=False)`: the date
when present, bottom for NaT / missing (pandas places NaN last regardless
of sort direction, and bottom is least, hence last in descending order). -/
def dateRank (r : Record) : WithBot Int :=
  match r.get "date" with
  | Value.date t => (t : WithBot Int)
  | _ => (⊥ : WithBot Int)

/-- Row `a` may precede row `b` in the descending-by-date order. -/
def byDateDesc (a b : Record) : Prop :=
  dateRank b ≤ dateRank a

instance : DecidableRel byDateDesc :=
  fun a b => inferInstanceAs (Decidable (dateRank b ≤ dateRank a))

instance : IsTotal Record byDateDesc :=
  ⟨fun a b => (le_total (dateRank b) (dateRank a)).imp id id⟩

instance : IsTrans Record byDateDesc :=
  ⟨fun _ _ _ hab hbc => le_trans hbc hab⟩

/-- cron_script.py lines 269-270: sort the combined frame by transaction
date, descending, absent dates last.  pandas' unstable quicksort is
modelled by a concrete sort realizing the same order. -/
def sortByDateDesc (df : List Record) : List Record :=
  List.insertionSort byDateDesc df

/-- The spec's invariant `sorted by transaction date descending` for a
persisted dataset (absent dates at the end). -/
def sortedByDateDesc (l : List Record) : Prop :=
  List.Sorted byDateDesc l

instance (l : List Record) : Decidable (sortedByDateDesc l) :=
  inferInstanceAs (Decidable (List.Pairwise byDateDesc l))

/-- Content of a file on disk: a dataset that reads back as records, or
content whose read raises (corrupt bytes, schema mismatch, empty file). -/
inductive FileContent where
  | ok : List Record → FileContent
  | corrupt : String → FileContent
deriving DecidableEq, Repr

/-- The filesystem state the scraper touches: the data file (none when it
does not exist), the backup files it has created, and the data file's
modification time. -/
structure FS where
  dataFile : Option FileContent
  backups : List (String × FileContent)
  mtime : Int
deriving DecidableEq, Repr

/-- Default data file name (cron_script.py line 14). -/
def data_file_name : String := "nse_insider_trading_data.csv"

/-- cron_script.py line 285: backup file name; the strftime timestamp is
abstracted as the decimal rendering of the current time. -/
def backup_name (now : Int) : String :=
  data_file_name ++ ".backup_" ++ toString now

/-- cron_script.py lines 281-294: rename the existing data file (if any) to
the timestamped backup name, then write the combined frame to the data
file.  The write itself is assumed to succeed (the claims do not concern
the write-failure handler at lines 296-298). -/
def saveData (now : Int) (fs : FS) (combined : List Record) : FS :=
  match fs.dataFile with
  | some old =>
      { fs with dataFile := some (FileContent.ok combined),
                backups := fs.backups ++ [(backup_name now, old)] }
  | none => { fs with dataFile := some (FileContent.ok combined) }

/-- cron_script.py lines 234-298, `update_data_file(new_df)`.  Returns the
reported count of new records, the resulting filesystem state, and the
final state of the caller's `new_df` (the function mutates it in place
when it adds the unique_key column).  The only in-scope failure of the
try block at lines 242-270 is the read of the existing file raising,
modelled by `FileContent.corrupt`; in that case the read fails before the
caller's frame is touched. -/
def update_data_file (now : Int) (fs : FS) (new_df : Option (List Record)) :
    Nat × FS × Option (List Record) :=
  match new_df with
  | none => (0, fs, none)
  | some df =>
    if df.isEmpty then (0, fs, some df)
    else
      match fs.dataFile with
      | some (FileContent.ok existing0) =>
          let existing1 := convertDateCol existing0
          let existing2 := addKeyColumn existing1
          let df2 := addKeyColumn df
          let existingKeys := existing2.map fun r => r.get "unique_key"
          let new_records0 := df2.filter fun r => !(isinVals (r.get "unique_key") existingKeys)
          if new_records0.isEmpty then (0, fs, some df2)
          else
            let new_records := new_records0.map fun r => r.removeField "unique_key"
            let existing3 := existing2.map fun r => r.removeField "unique_key"
            let combined0 := existing3 ++ new_records
            let combined := if hasCol combined0 "date" then sortByDateDesc combined0 else combined0
            (new_records.length, saveData now fs combined, some df2)
      | some (FileContent.corrupt _) =>
          (df.length, saveData now fs df, some df)
      | none =>
          (df.length, saveData now fs df, some df)

/-- Maximum of the date column after coercion, skipping NaT (pandas
Series.max with skipna); none when the column is absent or all-NaT. -/
def maxDate (df : List Record) : Option Int :=
  if hasCol df "date" then
    (df.filterMap fun r =>
      match to_datetime_coerce (r.get "date") with
      | Value.date t => some t
      | _ => none).max?
  else none

/-- cron_script.py lines 82-106, `get_last_update_time`: now minus seven
days when the file does not exist, when reading it raises (the except arm
at lines 104-106), or when it reads back empty; the maximum parseable date
when there is one; otherwise the file modification time. -/
def get_last_update_time (now : Int) (fs : FS) : Int :=
  match fs.dataFile with
  | none => now - 7 * 86400
  | some (FileContent.corrupt _) => now - 7 * 86400
  | some (FileContent.ok df) =>
    if df.isEmpty then now - 7 * 86400
    else
      match maxDate df with
      | some d => d
      | none => fs.mtime

/-- cron_script.py lines 117-120: clamp the fetch window start to at most
thirty days before now. -/
def compute_from_date (now from_date : Int) : Int :=
  let max_back_date := now - 30 * 86400
  if from_date < max_back_date then max_back_date else from_date

/-- The from_date actually used by fetch_insider_data when called with no
explicit from_date (cron_script.py lines 114-120). -/
def fetch_from_date (now : Int) (fs : FS) : Int :=
  compute_from_date now (get_last_update_time now fs)

/-- Parsed JSON value, as produced by json.loads. -/
inductive Json where
  | null : Json
  | bool : Bool → Json
  | num : Int → Json
  | str : String → Json
  | arr : List Json → Json
  | obj : List (String × Json) → Json

/-- Python truthiness of a parsed JSON value (`if not data[...]`). -/
def Json.truthy : Json → Bool
  | Json.null => false
  | Json.bool b => b
  | Json.num n => !(n == 0)
  | Json.str s => !(s == "")
  | Json.arr l => !l.isEmpty
  | Json.obj flds => !flds.isEmpty

/-- Substring containment over character lists (Python's `sub in s`). -/
def leadsWith : List Char → List Char → Bool
  | [], _ => true
  | _ :: _, [] => false
  | a :: as, b :: bs => a == b && leadsWith as bs

/-- Helper for substring containment: does `sub` occur in `s`. -/
def containsSeq (sub : List Char) : List Char → Bool
  | [] => sub.isEmpty
  | c :: cs => leadsWith sub (c :: cs) || containsSeq sub cs

/-- Python's `sub in s` on strings. -/
def strContains (s sub : String) : Bool :=
  containsSeq sub.toList s.toList

/-- Python's `s.lower()`, character by character. -/
def strLower (s : String) : String :=
  ⟨s.toList.map Char.toLower⟩

/-- An HTTP response as the fetch code observes it after the request: the
status code, the Content-Encoding and content-type headers, whether a
brotli decompression of the body would succeed, and the result of
json.loads on the (possibly decompressed) body text (none when that
raises JSONDecodeError). -/
structure ApiResponse where
  statusCode : Nat
  contentEncoding : String
  contentType : String
  decompressOk : Bool
  parsed : Option Json

/-- Result of cron_script.py's fetch_insider_data response handling:
failure stands for `return None`; success carries the row list (possibly
empty: `return pd.DataFrame(), from_date_str, to_date_str`) with the two
date strings. -/
inductive CronFetch where
  | failure : CronFetch
  | success : List Json → String → String → CronFetch

/-- cron_script.py lines 137-189, the response-handling tail of
fetch_insider_data: reject a non-200 status; when Content-Encoding
mentions br, reject if the brotli library is missing or decompression
raises; reject a content type that does not mention application/json;
reject a body that fails to parse, a non-object body, and an object with
no data key; return the explicitly-empty success when the data value is
falsy; otherwise return the rows.  A truthy non-list data value makes
pd.DataFrame raise, which the enclosing except turns into None. -/
def handle_response_cron (brotliInstalled : Bool) (resp : ApiResponse)
    (from_date_str to_date_str : String) : CronFetch :=
  if resp.statusCode ≠ 200 then CronFetch.failure
  else if strContains (strLower resp.contentEncoding) "br"
      && (!brotliInstalled || !resp.decompressOk) then CronFetch.failure
  else if !(strContains resp.contentType "application/json") then CronFetch.failure
  else
    match resp.parsed with
    | none => CronFetch.failure
    | some data =>
      match data with
      | Json.obj flds =>
        match flds.lookup "data" with
        | none => CronFetch.failure
        | some d =>
          if d.truthy = false then CronFetch.success [] from_date_str to_date_str
          else
            match d with
            | Json.arr l => CronFetch.success l from_date_str to_date_str
            | _ => CronFetch.failure
      | _ => CronFetch.failure

/-- main.py lines 94-162, the response-handling tail of the one-shot
variant's fetch_insider_data.  Identical gates, but an object whose data
value is falsy — the empty list included — returns None, the same value
every failure returns (main.py line 154). -/
def handle_response_main (brotliInstalled : Bool) (resp : ApiResponse)
    (from_date_str to_date_str : String) : Option (List Json × String × String) :=
  if resp.statusCode ≠ 200 then none
  else if strContains (strLower resp.contentEncoding) "br"
      && (!brotliInstalled || !resp.decompressOk) then none
  else if !(strContains resp.contentType "application/json") then none
  else
    match resp.parsed with
    | none => none
    | some data =>
      match data with
      | Json.obj flds =>
        match flds.lookup "data" with
        | none => none
        | some d =>
          if d.truthy = false then none
          else
            match d with
            | Json.arr l => some (l, from_date_str, to_date_str)
            | _ => none
      | _ => none

theorem lookup_setFieldList_self (f : String) (v : Value) (l : List (String × Value)) :
    lookupField f (setFieldList f v l) = some v := by
  induction l with
  | nil => simp [setFieldList, lookupField]
  | cons p rest ih =>
      obtain ⟨g, w⟩ := p
      by_cases hg : g = f
      · simp [setFieldList, lookupField, hg]
      · simp [setFieldList, lookupField, hg, ih]

theorem get_setField_self (r : Record) (f : String) (v : Value) :
    (r.setField f v).get f = v := by
  simp [Record.setField, Record.get, lookup_setFieldList_self]

theorem isinVals_iff (v : Value) (l : List Value) :
    isinVals v l = true ↔ v ∈ l := by
  induction l with
  | nil => simp [isinVals]
  | cons w ws ih =>
      by_cases hv : v = w
      · simp [isinVals, hv]
      · simp [isinVals, hv, ih]

theorem filter_isEmpty_of_false {α : Type} (p : α → Bool) (l : List α)
    (h : ∀ a ∈ l, p a = false) : (l.filter p).isEmpty = true := by
  induction l with
  | nil => simp
  | cons a rest ih =>
      have ha := h a (List.mem_cons_self a rest)
      simp only [List.filter, ha]
      exact ih fun b hb => h b (List.mem_cons_of_mem a hb)

theorem create_key_foldl (row : Record) (fs : List String) (acc : List String) :
    fs.foldl (fun acc field =>
      match lookupField field row.fields with
      | some v => acc ++ [if v = Value.absent then "NA" else valueStr v]
      | none => acc) acc
    = acc ++ fs.filterMap fun f =>
        (lookupField f row.fields).map fun v =>
          if v = Value.absent then "NA" else valueStr v := by
  induction fs generalizing acc with
  | nil => simp
  | cons f rest ih =>
      cases hf : lookupField f row.fields with
      | none => simp [List.foldl_cons, hf, ih, List.filterMap_cons]
      | some v => simp [List.foldl_cons, hf, ih, List.filterMap_cons]

theorem pairwise_of_all {α : Type} {R : α → α → Prop} {l : List α}
    (h : ∀ a ∈ l, ∀ b ∈ l, R a b) : List.Pairwise R l := by
  induction l with
  | nil => exact List.Pairwise.nil
  | cons a rest ih =>
      refine List.Pairwise.cons ?_ (ih fun x hx y hy =>
        h x (List.mem_cons_of_mem a hx) y (List.mem_cons_of_mem a hy))
      intro b hb
      exact h a (List.mem_cons_self a rest) b (List.mem_cons_of_mem a hb)

theorem all_rank_bot_of_not_hasCol (l : List Record) (h : hasCol l "date" = false) :
    ∀ r ∈ l, dateRank r = ⊥ := by
  intro r hr
  cases hcase : (lookupField "date" r.fields).isSome
  · have hnone : lookupField "date" r.fields = none :=
      Option.not_isSome_iff_eq_none.mp (by simp [hcase])
    simp [dateRank, Record.get, hnone]
  · have hany : hasCol l "date" = true := List.any_eq_true.mpr ⟨r, hr, hcase⟩
    rw [h] at hany
    exact Bool.noConfusion hany

theorem sorted_of_not_hasCol (l : List Record) (h : hasCol l "date" = false) :
    List.Pairwise byDateDesc l := by
  refine pairwise_of_all ?_
  intro a ha b hb
  show dateRank b ≤ dateRank a
  rw [all_rank_bot_of_not_hasCol l h a ha, all_rank_bot_of_not_hasCol l h b hb]

/-- C2: for every checkpoint, the from_date used for the fetch is never
earlier than now minus 30 days, and when the checkpoint is older than 30
days before now the computed from_date is exactly now minus 30 days
(cron_script.py lines 108-120). -/
theorem fetch_window_clamp (now checkpoint : Int) :
    now - 30 * 86400 ≤ compute_from_date now checkpoint
    ∧ (checkpoint < now - 30 * 86400 →
        compute_from_date now checkpoint = now - 30 * 86400) := by
  constructor
  · simp only [compute_from_date]
    split
    · omega
    · omega
  · intro h
    simp only [compute_from_date]
    split
    · rfl
    · omega

/-- Witness for the window clamp at a concrete checkpoint far in the past. -/
theorem fetch_window_clamp_witness :
    ((0 : Int) < 5000000 - 30 * 86400
      ∧ 5000000 - 30 * 86400 ≤ compute_from_date 5000000 0)
    ∧ compute_from_date 5000000 0 = 5000000 - 30 * 86400 :=
  ⟨⟨by decide, (fetch_window_clamp 5000000 0).1⟩,
    (fetch_window_clamp 5000000 0).2 (by decide)⟩

/-- C4: the identity key is the bar-separated join over the fixed ordered
field subset, rendering a present-but-absent value as the token NA and
omitting a field missing from the schema with no placeholder; and the key
is a pure function of the six key fields, so records agreeing on them get
equal keys whatever their other fields hold (cron_script.py lines
221-232). -/
theorem create_unique_key_correct :
    (∀ r : Record, create_unique_key r = String.intercalate "|"
        (key_fields.filterMap fun f => (lookupField f r.fields).map fun v =>
          if v = Value.absent then "NA" else valueStr v))
    ∧ (∀ r1 r2 : Record,
        (∀ f ∈ key_fields, lookupField f r1.fields = lookupField f r2.fields) →
        create_unique_key r1 = create_unique_key r2) := by
  constructor
  · intro r
    simp [create_unique_key, create_key_foldl]
  · intro r1 r2 h
    simp only [create_unique_key, create_key_foldl, List.nil_append]
    congr 1
    exact List.filterMap_congr fun f hf => by rw [h f hf]

/-- The spec's own example: two records identical on the key fields but
with different buyQuantity receive the same identity key. -/
theorem create_unique_key_correct_witness :
    (∀ f ∈ key_fields,
      lookupField f [("symbol", Value.str "ABC"), ("date", Value.date 100),
        ("secVal", Value.num 100), ("tdpTransactionType", Value.str "Buy"),
        ("buyQuantity", Value.num 10)]
      = lookupField f [("symbol", Value.str "ABC"), ("date", Value.date 100),
        ("secVal", Value.num 100), ("tdpTransactionType", Value.str "Buy"),
        ("buyQuantity", Value.num 999)])
    ∧ create_unique_key ⟨[("symbol", Value.str "ABC"), ("date", Value.date 100),
        ("secVal", Value.num 100), ("tdpTransactionType", Value.str "Buy"),
        ("buyQuantity", Value.num 10)]⟩
      = create_unique_key ⟨[("symbol", Value.str "ABC"), ("date", Value.date 100),
        ("secVal", Value.num 100), ("tdpTransactionType", Value.str "Buy"),
        ("buyQuantity", Value.num 999)]⟩ :=
  ⟨by decide,
    create_unique_key_correct.2 _ _ (by decide)⟩

/-- C8: an absent or empty incoming frame makes update_data_file report
zero new records and leave the filesystem (data file and backups alike)
untouched (cron_script.py lines 236-238). -/
theorem update_empty_incoming_noop (now : Int) (fs : FS) :
    update_data_file now fs none = (0, fs, none)
    ∧ update_data_file now fs (some []) = (0, fs, some []) := by
  constructor <;> rfl

/-- C10: get_last_update_time is total; it returns the now-minus-7-days
default when the file is missing, when reading it raises, and when it
reads back empty; it returns the maximum parseable date when one exists;
and it falls back to the file modification time exactly when the file
reads back non-empty with no parseable maximum date (cron_script.py lines
82-106). -/
theorem get_last_update_time_cases (now : Int) (fs : FS) :
    (fs.dataFile = none → get_last_update_time now fs = now - 7 * 86400)
    ∧ (∀ s, fs.dataFile = some (FileContent.corrupt s) →
        get_last_update_time now fs = now - 7 * 86400)
    ∧ (∀ df, fs.dataFile = some (FileContent.ok df) → df.isEmpty = true →
        get_last_update_time now fs = now - 7 * 86400)
    ∧ (∀ df d, fs.dataFile = some (FileContent.ok df) → df.isEmpty = false →
        maxDate df = some d → get_last_update_time now fs = d)
    ∧ (∀ df, fs.dataFile = some (FileContent.ok df) → df.isEmpty = false →
        maxDate df = none → get_last_update_time now fs = fs.mtime) := by
  refine ⟨?_, ?_, ?_, ?_, ?_⟩
  · intro h
    simp [get_last_update_time, h]
  · intro s h
    simp [get_last_update_time, h]
  · intro df h hemp
    simp [get_last_update_time, h, hemp]
  · intro df d h hemp hmax
    simp [get_last_update_time, h, hemp, hmax]
  · intro df h hemp hmax
    simp [get_last_update_time, h, hemp, hmax]

/-- Witness: a one-row readable file whose maximum date is returned. -/
theorem get_last_update_time_cases_witness :
    (FS.mk (some (FileContent.ok [⟨[("date", Value.date 42)]⟩])) [] 7).dataFile
        = some (FileContent.ok [⟨[("date", Value.date 42)]⟩])
    ∧ ([(⟨[("date", Value.date 42)]⟩ : Record)].isEmpty = false
        ∧ maxDate [⟨[("date", Value.date 42)]⟩] = some 42)
    ∧ get_last_update_time 1000000 ⟨some (FileContent.ok [⟨[("date", Value.date 42)]⟩]), [], 7⟩ = 42 :=
  ⟨rfl, ⟨rfl, by decide⟩,
    (get_last_update_time_cases 1000000
      ⟨some (FileContent.ok [⟨[("date", Value.date 42)]⟩]), [], 7⟩).2.2.2.1 _ 42 rfl rfl (by decide)⟩

/-- C1: when every incoming record's identity key already occurs among the
keys of the (readable) existing dataset, update_data_file reports zero new
records and leaves the filesystem untouched: no backup is created and the
data file keeps its previous content (cron_script.py lines 250-259). -/
theorem merge_idempotent (now : Int) (fs : FS) (existing df : List Record)
    (hfile : fs.dataFile = some (FileContent.ok existing))
    (hkeys : ∀ r ∈ df,
      create_unique_key r ∈ (convertDateCol existing).map create_unique_key) :
    (update_data_file now fs (some df)).1 = 0
    ∧ (update_data_file now fs (some df)).2.1 = fs := by
  by_cases hdf : df.isEmpty
  · simp [update_data_file, hdf]
  · have hdf' : df.isEmpty = false := Bool.not_eq_true _ ▸ Bool.of_not_eq_true hdf
    have hcomp : ((fun r : Record => r.get "unique_key") ∘ fun r : Record =>
        r.setField "unique_key" (Value.str (create_unique_key r)))
        = fun r : Record => Value.str (create_unique_key r) :=
      funext fun r => get_setField_self r _ _
    have hfilter : ((addKeyColumn df).filter fun r =>
        !(isinVals (r.get "unique_key")
          ((addKeyColumn (convertDateCol existing)).map fun r => r.get "unique_key"))).isEmpty
        = true := by
      apply filter_isEmpty_of_false
      intro r2 hr2
      simp only [addKeyColumn, List.mem_map] at hr2
      obtain ⟨r0, hr0, rfl⟩ := hr2
      rw [get_setField_self]
      have hmem : Value.str (create_unique_key r0) ∈
          (addKeyColumn (convertDateCol existing)).map fun r => r.get "unique_key" := by
        simp only [addKeyColumn, List.map_map, hcomp]
        obtain ⟨e, he, hke⟩ := List.mem_map.mp (hkeys r0 hr0)
        exact List.mem_map.mpr ⟨e, he, by rw [hke]⟩
      rw [(isinVals_iff _ _).mpr hmem]
      rfl
    simp [update_data_file, hfile, hdf', hfilter]

/-- Witness for idempotent merge: re-offering the single stored record. -/
theorem merge_idempotent_witness :
    ((FS.mk (some (FileContent.ok [⟨[("symbol", Value.str "ABC")]⟩])) [] 0).dataFile
        = some (FileContent.ok [⟨[("symbol", Value.str "ABC")]⟩])
      ∧ ∀ r ∈ [(⟨[("symbol", Value.str "ABC")]⟩ : Record)],
          create_unique_key r ∈
            (convertDateCol [⟨[("symbol", Value.str "ABC")]⟩]).map create_unique_key)
    ∧ (update_data_file 9 ⟨some (FileContent.ok [⟨[("symbol", Value.str "ABC")]⟩]), [], 0⟩
        (some [⟨[("symbol", Value.str "ABC")]⟩])).1 = 0
    ∧ (update_data_file 9 ⟨some (FileContent.ok [⟨[("symbol", Value.str "ABC")]⟩]), [], 0⟩
        (some [⟨[("symbol", Value.str "ABC")]⟩])).2.1
        = ⟨some (FileContent.ok [⟨[("symbol", Value.str "ABC")]⟩]), [], 0⟩ :=
  ⟨⟨rfl, by decide⟩,
    merge_idempotent 9 ⟨some (FileContent.ok [⟨[("symbol", Value.str "ABC")]⟩]), [], 0⟩
      [⟨[("symbol", Value.str "ABC")]⟩] [⟨[("symbol", Value.str "ABC")]⟩] rfl (by decide)⟩

/-- C9: whenever the existing data file reads back successfully and the
incoming frame is non-empty, update_data_file hands back the caller's
frame with the helper unique_key column added in place and never removed,
in the zero-new-records early return as well as in the write path
(cron_script.py lines 252, 255-262). -/
theorem update_mutates_incoming (now : Int) (fs : FS) (existing df : List Record)
    (hfile : fs.dataFile = some (FileContent.ok existing))
    (hdf : df.isEmpty = false) :
    (update_data_file now fs (some df)).2.2 = some (addKeyColumn df)
    ∧ ∀ r ∈ addKeyColumn df, (lookupField "unique_key" r.fields).isSome = true := by
  constructor
  · simp only [update_data_file, hfile, hdf]
    split
    · next h => exact Bool.noConfusion h
    · split <;> rfl
  · intro r hr
    simp only [addKeyColumn, List.mem_map] at hr
    obtain ⟨r0, _, rfl⟩ := hr
    simp [Record.setField, lookup_setFieldList_self]

/-- Witness: a one-record incoming frame against a readable file gains the
unique_key column. -/
theorem update_mutates_incoming_witness :
    ((FS.mk (some (FileContent.ok [⟨[("symbol", Value.str "A")]⟩])) [] 0).dataFile
        = some (FileContent.ok [⟨[("symbol", Value.str "A")]⟩])
      ∧ ([(⟨[("symbol", Value.str "B")]⟩ : Record)].isEmpty = false))
    ∧ (update_data_file 3 ⟨some (FileContent.ok [⟨[("symbol", Value.str "A")]⟩]), [], 0⟩
        (some [⟨[("symbol", Value.str "B")]⟩])).2.2
        = some (addKeyColumn [⟨[("symbol", Value.str "B")]⟩])
    ∧ ∀ r ∈ addKeyColumn [(⟨[("symbol", Value.str "B")]⟩ : Record)],
        (lookupField "unique_key" r.fields).isSome = true :=
  ⟨⟨rfl, rfl⟩,
    update_mutates_incoming 3 ⟨some (FileContent.ok [⟨[("symbol", Value.str "A")]⟩]), [], 0⟩
      [⟨[("symbol", Value.str "A")]⟩] [⟨[("symbol", Value.str "B")]⟩] rfl rfl⟩

/-- C3: when reading the existing data file raises, a cycle with a
non-empty incoming frame still completes: every incoming record counts as
new and the rewritten data file holds exactly the incoming records, none
of the unreadable previous content (cron_script.py lines 272-275 with
281-294). -/
theorem corrupt_file_recovery (now : Int) (fs : FS) (s : String) (df : List Record)
    (hfile : fs.dataFile = some (FileContent.corrupt s))
    (hdf : df.isEmpty = false) :
    (update_data_file now fs (some df)).1 = df.length
    ∧ (update_data_file now fs (some df)).2.1.dataFile = some (FileContent.ok df) := by
  simp [update_data_file, saveData, hfile, hdf]

/-- Witness: one incoming record over an unreadable file. -/
theorem corrupt_file_recovery_witness :
    ((FS.mk (some (FileContent.corrupt "garbage")) [] 0).dataFile
        = some (FileContent.corrupt "garbage")
      ∧ ([(⟨[("symbol", Value.str "X")]⟩ : Record)].isEmpty = false))
    ∧ (update_data_file 4 ⟨some (FileContent.corrupt "garbage"), [], 0⟩
        (some [⟨[("symbol", Value.str "X")]⟩])).1 = 1
    ∧ (update_data_file 4 ⟨some (FileContent.corrupt "garbage"), [], 0⟩
        (some [⟨[("symbol", Value.str "X")]⟩])).2.1.dataFile
        = some (FileContent.ok [⟨[("symbol", Value.str "X")]⟩]) :=
  ⟨⟨rfl, rfl⟩,
    corrupt_file_recovery 4 ⟨some (FileContent.corrupt "garbage"), [], 0⟩ "garbage"
      [⟨[("symbol", Value.str "X")]⟩] rfl rfl⟩

/-- C5: whenever update_data_file actually changes the data file's content
and a file already existed at the path, the previous file is renamed (its
content is moved, not copied) to the name with the backup_ timestamp
suffix before the new content is written: the post state holds exactly one
more backup, carrying the old content (cron_script.py lines 283-290). -/
theorem backup_before_overwrite (now : Int) (fs : FS) (new_df : Option (List Record))
    (old : FileContent)
    (hfile : fs.dataFile = some old)
    (hwrite : (update_data_file now fs new_df).2.1.dataFile ≠ fs.dataFile) :
    (update_data_file now fs new_df).2.1.backups
      = fs.backups ++ [(backup_name now, old)] := by
  revert hwrite
  match new_df with
  | none => intro hwrite; exact absurd rfl hwrite
  | some df =>
    by_cases hdf : df.isEmpty
    · simp [update_data_file, hdf]
    · have hdf' : df.isEmpty = false := Bool.not_eq_true _ ▸ Bool.of_not_eq_true hdf
      match old with
      | FileContent.ok existing =>
        simp only [update_data_file, hfile, hdf']
        split
        · next h => exact Bool.noConfusion h
        · split
          · intro hwrite
            exact absurd hfile hwrite
          · intro _
            simp [saveData, hfile]
      | FileContent.corrupt s =>
        intro _
        simp [update_data_file, saveData, hfile, hdf']

/-- Witness: overwriting a readable one-record file with one genuinely new
record creates the timestamped backup holding the old content. -/
theorem backup_before_overwrite_witness :
    ((FS.mk (some (FileContent.ok [⟨[("symbol", Value.str "A")]⟩])) [] 0).dataFile
        = some (FileContent.ok [⟨[("symbol", Value.str "A")]⟩])
      ∧ (update_data_file 7 ⟨some (FileContent.ok [⟨[("symbol", Value.str "A")]⟩]), [], 0⟩
          (some [⟨[("symbol", Value.str "B")]⟩])).2.1.dataFile
        ≠ (FS.mk (some (FileContent.ok [⟨[("symbol", Value.str "A")]⟩])) [] 0).dataFile)
    ∧ (update_data_file 7 ⟨some (FileContent.ok [⟨[("symbol", Value.str "A")]⟩]), [], 0⟩
        (some [⟨[("symbol", Value.str "B")]⟩])).2.1.backups
      = [] ++ [(backup_name 7, FileContent.ok [⟨[("symbol", Value.str "A")]⟩])] :=
  ⟨⟨rfl, by decide⟩,
    backup_before_overwrite 7 ⟨some (FileContent.ok [⟨[("symbol", Value.str "A")]⟩]), [], 0⟩
      (some [⟨[("symbol", Value.str "B")]⟩]) (FileContent.ok [⟨[("symbol", Value.str "A")]⟩])
      rfl (by decide)⟩

/-- C6 counterexample: on first creation (no prior file) the persisted
dataset is exactly the incoming records in their incoming order, and an
incoming frame in ascending date order is persisted unsorted: the sort at
cron_script.py lines 269-270 sits inside the try block that reads the
existing file and is never reached in the first-creation (or corrupt-file)
path. -/
theorem sorted_after_merge_cex :
    (update_data_file 5 ⟨none, [], 0⟩
        (some [⟨[("date", Value.date 1)]⟩, ⟨[("date", Value.date 2)]⟩])).2.1.dataFile
      = some (FileContent.ok [⟨[("date", Value.date 1)]⟩, ⟨[("date", Value.date 2)]⟩])
    ∧ ¬ sortedByDateDesc [⟨[("date", Value.date 1)]⟩, ⟨[("date", Value.date 2)]⟩] :=
  ⟨rfl, by decide⟩

/-- C6 amended: after every merge in which the existing data file was read
successfully and the data file's content actually changed, the persisted
dataset is sorted by transaction date descending with absent dates last
(trivially so when the combined frame has no date column, every sort key
then being bottom).  First-creation and corrupt-file merges are excluded:
there the persisted dataset is the incoming frame as-is. -/
theorem sorted_after_merge_amended (now : Int) (fs : FS) (existing df c : List Record)
    (hfile : fs.dataFile = some (FileContent.ok existing))
    (hwrite : (update_data_file now fs (some df)).2.1.dataFile ≠ fs.dataFile)
    (hc : (update_data_file now fs (some df)).2.1.dataFile = some (FileContent.ok c)) :
    sortedByDateDesc c := by
  revert hwrite hc
  by_cases hdf : df.isEmpty
  · simp [update_data_file, hdf]
  · have hdf' : df.isEmpty = false := Bool.not_eq_true _ ▸ Bool.of_not_eq_true hdf
    simp only [update_data_file, hfile, hdf']
    split
    · next h => exact Bool.noConfusion h
    · split
      · intro hwrite _
        exact absurd hfile hwrite
      · intro _ hc
        simp only [saveData, hfile, Option.some.injEq, FileContent.ok.injEq] at hc
        subst hc
        split
        · simp only [sortedByDateDesc, sortByDateDesc]
          exact List.sorted_insertionSort byDateDesc _
        · next h =>
          exact sorted_of_not_hasCol _ (Bool.not_eq_true _ ▸ Bool.of_not_eq_true h)

/-- Witness for the amended sort invariant: merging one new dated record
into a readable one-record file persists a date-descending dataset. -/
theorem sorted_after_merge_amended_witness :
    ((FS.mk (some (FileContent.ok [⟨[("symbol", Value.str "A"), ("date", Value.date 2)]⟩])) [] 0).dataFile
        = some (FileContent.ok [⟨[("symbol", Value.str "A"), ("date", Value.date 2)]⟩])
      ∧ (update_data_file 8
          ⟨some (FileContent.ok [⟨[("symbol", Value.str "A"), ("date", Value.date 2)]⟩]), [], 0⟩
          (some [⟨[("symbol", Value.str "B"), ("date", Value.date 1)]⟩])).2.1.dataFile
        ≠ (FS.mk (some (FileContent.ok [⟨[("symbol", Value.str "A"), ("date", Value.date 2)]⟩])) [] 0).dataFile
      ∧ (update_data_file 8
          ⟨some (FileContent.ok [⟨[("symbol", Value.str "A"), ("date", Value.date 2)]⟩]), [], 0⟩
          (some [⟨[("symbol", Value.str "B"), ("date", Value.date 1)]⟩])).2.1.dataFile
        = some (FileContent.ok [⟨[("symbol", Value.str "A"), ("date", Value.date 2)]⟩,
            ⟨[("symbol", Value.str "B"), ("date", Value.date 1)]⟩]))
    ∧ sortedByDateDesc [⟨[("symbol", Value.str "A"), ("date", Value.date 2)]⟩,
        ⟨[("symbol", Value.str "B"), ("date", Value.date 1)]⟩] :=
  ⟨⟨rfl, by decide, by decide⟩,
    sorted_after_merge_amended 8
      ⟨some (FileContent.ok [⟨[("symbol", Value.str "A"), ("date", Value.date 2)]⟩]), [], 0⟩
      [⟨[("symbol", Value.str "A"), ("date", Value.date 2)]⟩]
      [⟨[("symbol", Value.str "B"), ("date", Value.date 1)]⟩]
      [⟨[("symbol", Value.str "A"), ("date", Value.date 2)]⟩,
        ⟨[("symbol", Value.str "B"), ("date", Value.date 1)]⟩]
      rfl (by decide) (by decide)⟩

/-- C7 counterexample: a successful JSON response whose data field holds
the empty list makes main.py's fetch_insider_data return None (main.py
lines 154-156) — the very value it returns when the data field is missing
(main.py lines 150-152) and on every other failure — so the fetch
operation of that variant does not return an explicitly-empty result
distinct from the error result. -/
theorem fetch_empty_data_cex :
    handle_response_main true
      ⟨200, "", "application/json", true, some (Json.obj [("data", Json.arr [])])⟩
      "01-01-2024" "31-01-2024" = none
    ∧ handle_response_main true
      ⟨200, "", "application/json", true, some (Json.obj [("other", Json.num 1)])⟩
      "01-01-2024" "31-01-2024" = none :=
  ⟨rfl, rfl⟩

/-- C7 amended: the claim holds for the cron variant only.  In
cron_script.py, every successful 200 response with a JSON content type
whose parsed body is an object carrying an empty data list yields the
explicitly-empty success (empty row list plus the two date strings),
which is a different value from the failure result; in main.py the same
input yields None, indistinguishable from the error result. -/
theorem fetch_empty_data_cron (brotliInstalled : Bool) (resp : ApiResponse)
    (from_date_str to_date_str : String) (flds : List (String × Json))
    (h200 : resp.statusCode = 200)
    (henc : strContains (strLower resp.contentEncoding) "br" = false)
    (hct : strContains resp.contentType "application/json" = true)
    (hp : resp.parsed = some (Json.obj flds))
    (hd : flds.lookup "data" = some (Json.arr [])) :
    handle_response_cron brotliInstalled resp from_date_str to_date_str
      = CronFetch.success [] from_date_str to_date_str
    ∧ CronFetch.success [] from_date_str to_date_str ≠ CronFetch.failure := by
  constructor
  · simp [handle_response_cron, h200, henc, hct, hp, hd, Json.truthy]
  · intro h
    exact CronFetch.noConfusion h

/-- Witness: the concrete empty-data response through the cron handler. -/
theorem fetch_empty_data_cron_witness :
    ((⟨200, "", "application/json", true, some (Json.obj [("data", Json.arr [])])⟩ :
        ApiResponse).statusCode = 200
      ∧ strContains (strLower "") "br" = false
      ∧ strContains "application/json" "application/json" = true
      ∧ ([("data", Json.arr [])].lookup "data" = some (Json.arr [])))
    ∧ handle_response_cron true
        ⟨200, "", "application/json", true, some (Json.obj [("data", Json.arr [])])⟩
        "01-01-2024" "31-01-2024"
      = CronFetch.success [] "01-01-2024" "31-01-2024"
    ∧ CronFetch.success [] "01-01-2024" "31-01-2024" ≠ CronFetch.failure :=
  ⟨⟨rfl, rfl, rfl, rfl⟩,
    fetch_empty_data_cron true
      ⟨200, "", "application/json", true, some (Json.obj [("data", Json.arr [])])⟩
      "01-01-2024" "31-01-2024" [("data", Json.arr [])] rfl rfl rfl rfl rfl⟩
